import Mathlib

/-!
Verification of the `onft` block primitive (`src/block.rs`, `src/lib.rs`).

The crate declares three modules: `block`, `error` and `hash`, but only
`block.rs` and `lib.rs` are present in the sources. `Block`, `Ownership`,
`Block::new`, `Block::verify`, `Block::default`, `Ownership::to_raw_public`
and the two `Serialize` impls are embedded directly from `block.rs`. The
`Hash` engine (`hash.rs`), the `Error` enum (`error.rs`), the
`PROTO_VERSION` constant and the behaviour of the external OpenSSL key
provider are modelled from the specification, as noted on each definition.

Cryptography is modelled symbolically (an idealised signature scheme):
key material is an abstract key identifier, and a signature is a value that
determines the signing key and the signed message exactly. Key generation
draws from an explicit entropy counter threaded through `Hash.new` and
`Block.new`, reflecting the process-wide random source of the spec.
-/

namespace Onft

/-- Byte strings. Bytes are idealised as natural numbers so that the
symbolic signature scheme can store unbounded codes in a cell. -/
abbrev Bytes := List Nat

/-- Modelled from the spec: `error.rs` is absent. Error kinds of section 7;
`GenesisIsNotKey` and `KeyPublic` are the kinds named in `block.rs`. -/
inductive Error where
  | GenesisIsNotKey
  | KeyPublic
  | KeyGen
  | Signer
  | Verifier
deriving DecidableEq, Repr

/-- Modelled from the spec: `hash.rs` is absent. A `Hash` is an opaque
fixed-length identifier of a block content; we model it as a wrapper
around its bytes. -/
structure Hash where
  bytes : Bytes
deriving DecidableEq, Repr

/-- Fixed signature length constant `Hash::SIG_LEN` used to size signature
storage (`block.rs` line 45). Modelled from the spec: its value is defined
in the absent `hash.rs`; 64 is the length of an Ed25519 signature. -/
def Hash.SIG_LEN : Nat := 64

/-- Modelled from the spec: the distinguished default hash representing
"no predecessor" (the genesis anchor), a zero-valued hash. -/
def Hash.default : Hash := ⟨List.replicate 32 0⟩

/-- Modelled from the spec: the external OpenSSL `PKey<Private>` handle,
idealised as an abstract key identifier. -/
structure PKeyPrivate where
  id : Nat
deriving DecidableEq, Repr

/-- Modelled from the spec: the external OpenSSL `PKey<Public>` handle,
idealised as an abstract key identifier. -/
structure PKeyPublic where
  id : Nat
deriving DecidableEq, Repr

/-- Modelled from the spec: OpenSSL `raw_public_key`, exporting the raw
(algorithm-defined) public-key bytes of a key; always possible for the
keys this crate generates, and never empty (32 bytes for Ed25519). -/
def raw_public_key (id : Nat) : Bytes := id :: List.replicate 31 0

/-- Injective code of a byte string into one natural number, used by the
symbolic signature scheme: each element contributes its own power-of-two
block, so distinct lists get distinct codes. -/
def encMsg : Bytes → Nat
  | [] => 0
  | x :: xs => 2 ^ x * (2 * encMsg xs + 1)

/-- Modelled from the spec: the idealised signature produced by key `k`
over message `m` (`sign over previous_hash || data`). The signature is a
`SIG_LEN`-cell byte string that records the key and an injective code of
the message, so verification succeeds only on exact cryptographic match. -/
def rawSign (k : Nat) (m : Bytes) : Bytes :=
  k :: encMsg m :: List.replicate (Hash.SIG_LEN - 2) 0

/-- Modelled from the spec: deterministic content hash bound to the
predecessor hash and the payload, computed by the engine. -/
def Hash.digest (previous_hash : Hash) (data : Bytes) : Hash :=
  ⟨List.replicate 31 0 ++ [encMsg (previous_hash.bytes ++ data)]⟩

/-- Modelled from the spec: the engine operation `Hash::new` (`derive`):
generates a brand-new keypair from the entropy source `g`, computes the
content hash, and signs `previous_hash || data` with the fresh private
key. Returns the advanced entropy state alongside the `Result`. -/
def Hash.new (g : Nat) (previous_hash : Hash) (data : Bytes) :
    Except Error (Hash × Bytes × PKeyPrivate) × Nat :=
  (Except.ok (Hash.digest previous_hash data,
              rawSign g (previous_hash.bytes ++ data),
              ⟨g⟩), g + 1)

/-- Modelled from the spec: the engine operation `Hash::verify`: recomputes
the signed message `previous_hash || data` and checks the stored signature
against it under the supplied public key; a mere mismatch is the boolean
`false`, never an error. -/
def Hash.verify (_self : Hash) (previous_hash : Hash) (signature : Bytes)
    (data : Bytes) (key : Nat) : Except Error Bool :=
  Except.ok (decide (signature = rawSign key (previous_hash.bytes ++ data)))

/-- The enum `Ownership` from `block.rs`: ownership keys and information
for a given block (`Genesis` / `Them` / `Us`). -/
inductive Ownership where
  | Genesis
  | Them (pkey : PKeyPublic)
  | Us (pkey : PKeyPrivate)
deriving DecidableEq, Repr

/-- The `From<PKey<Private>> for Ownership` impl from `block.rs`. -/
def Ownership.ofPrivate (pkey : PKeyPrivate) : Ownership := Ownership.Us pkey

/-- The `From<PKey<Public>> for Ownership` impl from `block.rs`. -/
def Ownership.ofPublic (pkey : PKeyPublic) : Ownership := Ownership.Them pkey

/-- The method `Ownership::to_raw_public` from `block.rs`: converts
ownership to raw public-key bytes; `Genesis` is `Err(GenesisIsNotKey)`. -/
def Ownership.to_raw_public : Ownership → Except Error Bytes
  | Ownership.Genesis => Except.error Error.GenesisIsNotKey
  | Ownership.Them pkey => Except.ok (raw_public_key pkey.id)
  | Ownership.Us pkey => Except.ok (raw_public_key pkey.id)

/-- The struct `Block` from `block.rs`: hash, ownership, fixed-size
signature and payload data. -/
structure Block where
  hash : Hash
  ownership : Ownership
  signature : Bytes
  data : Bytes
deriving DecidableEq, Repr

/-- The method `Block::new` from `block.rs`: converts the data to owned bytes, calls
`Hash::new`, wraps the fresh private key via `From` into `Ownership::Us`,
and assembles the block. The entropy state `g` is threaded explicitly. -/
def Block.new (g : Nat) (previous_hash : Hash) (data : Bytes) :
    Except Error Block × Nat :=
  match Hash.new g previous_hash data with
  | (Except.ok (hash, signature, pkey), g2) =>
      (Except.ok { hash := hash, ownership := Ownership.ofPrivate pkey,
                   signature := signature, data := data }, g2)
  | (Except.error e, g2) => (Except.error e, g2)

/-- The method `Block::verify` from `block.rs`: dispatches on ownership; keyed
variants delegate to `Hash::verify` with the block fields, `Genesis` is
`Err(GenesisIsNotKey)`. -/
def Block.verify (self : Block) (previous_hash : Hash) : Except Error Bool :=
  match self.ownership with
  | Ownership.Them pkey =>
      self.hash.verify previous_hash self.signature self.data pkey.id
  | Ownership.Us pkey =>
      self.hash.verify previous_hash self.signature self.data pkey.id
  | Ownership.Genesis => Except.error Error.GenesisIsNotKey

/-- The `impl Default for Block` from `block.rs`: the canonical genesis block. -/
def Block.default : Block :=
  { hash := Hash.default, ownership := Ownership.Genesis,
    signature := List.replicate Hash.SIG_LEN 0, data := [] }

/-- Modelled from the spec: the wire protocol version constant
`PROTO_VERSION` referenced by the `Serialize` impl; its defining module is
absent, and it is a fixed constant tag identifying the wire format. -/
def PROTO_VERSION : Nat := 0

/-- Abstract serde data model value: what a serializer is fed. -/
inductive SValue where
  | nat (n : Nat)
  | bytes (bs : Bytes)
  | structv (name : String) (fields : List (String × SValue))

/-- The `impl Serialize for Ownership` from `block.rs`: serializes the raw
public-key bytes, propagating the `to_raw_public` failure for `Genesis`. -/
def Ownership.serialize (self : Ownership) : Except Error SValue :=
  match self.to_raw_public with
  | Except.ok bs => Except.ok (SValue.bytes bs)
  | Except.error e => Except.error e

/-- Modelled from the spec: `Serialize` for `Hash` (defined in the absent
`hash.rs`) emits the hash bytes. -/
def Hash.serialize (self : Hash) : SValue := SValue.bytes self.bytes

/-- The `impl Serialize for Block` from `block.rs`: a struct named `Block`
with the fields `pver` (the protocol version constant), `hash`,
`ownership` and `data`, failing when the ownership cannot serialize. -/
def Block.serialize (self : Block) : Except Error SValue :=
  match self.ownership.serialize with
  | Except.ok oser =>
      Except.ok (SValue.structv "Block"
        [("pver", SValue.nat PROTO_VERSION),
         ("hash", self.hash.serialize),
         ("ownership", oser),
         ("data", SValue.bytes self.data)])
  | Except.error e => Except.error e

/-- State-threaded form of `Block::verify`, making the `&self` borrow
explicit: the pair returns the result together with the post-state of the
receiver, mirroring each arm of the source match. -/
def Block.verifyS (self : Block) (previous_hash : Hash) :
    Except Error Bool × Block :=
  match self.ownership with
  | Ownership.Them pkey =>
      (self.hash.verify previous_hash self.signature self.data pkey.id, self)
  | Ownership.Us pkey =>
      (self.hash.verify previous_hash self.signature self.data pkey.id, self)
  | Ownership.Genesis => (Except.error Error.GenesisIsNotKey, self)

/-- State-threaded form of `Ownership::to_raw_public`, making the `&self`
borrow explicit. -/
def Ownership.to_raw_publicS (self : Ownership) :
    Except Error Bytes × Ownership :=
  (self.to_raw_public, self)

/-- Uniqueness of the `2 ^ a * odd` presentation of a positive natural
number: both the exponent and the odd part are determined. -/
theorem two_pow_odd_inj (a : Nat) : ∀ (b x y : Nat),
    2 ^ a * (2 * x + 1) = 2 ^ b * (2 * y + 1) → a = b ∧ x = y := by
  induction a with
  | zero =>
    intro b x y h
    cases b with
    | zero =>
      simp only [pow_zero, one_mul] at h
      omega
    | succ b =>
      exfalso
      simp only [pow_zero, one_mul, pow_succ] at h
      rw [show 2 ^ b * 2 * (2 * y + 1) = 2 * (2 ^ b * (2 * y + 1)) from by ring]
        at h
      omega
  | succ a ih =>
    intro b x y h
    cases b with
    | zero =>
      exfalso
      simp only [pow_zero, one_mul, pow_succ] at h
      rw [show 2 ^ a * 2 * (2 * x + 1) = 2 * (2 ^ a * (2 * x + 1)) from by ring]
        at h
      omega
    | succ b =>
      rw [pow_succ, pow_succ,
        show 2 ^ a * 2 * (2 * x + 1) = 2 * (2 ^ a * (2 * x + 1)) from by ring,
        show 2 ^ b * 2 * (2 * y + 1) = 2 * (2 ^ b * (2 * y + 1)) from by ring]
        at h
      have h2 := Nat.eq_of_mul_eq_mul_left (by omega : 0 < 2) h
      obtain ⟨hab, hxy⟩ := ih b x y h2
      exact ⟨by omega, hxy⟩

/-- The message code is positive on a nonempty message. -/
theorem encMsg_pos (x : Nat) (xs : Bytes) : 0 < encMsg (x :: xs) := by
  have h1 : 0 < 2 ^ x := Nat.pos_pow_of_pos x (by omega)
  have h2 : 0 < 2 * encMsg xs + 1 := by omega
  simp only [encMsg]
  exact Nat.mul_pos h1 h2

/-- The message code is injective: distinct messages get distinct codes. -/
theorem encMsg_inj : ∀ (m1 m2 : Bytes), encMsg m1 = encMsg m2 → m1 = m2 := by
  intro m1
  induction m1 with
  | nil =>
    intro m2 h
    cases m2 with
    | nil => rfl
    | cons y ys =>
      exfalso
      have hp := encMsg_pos y ys
      simp only [encMsg] at h hp
      omega
  | cons x xs ih =>
    intro m2 h
    cases m2 with
    | nil =>
      exfalso
      have hp := encMsg_pos x xs
      simp only [encMsg] at h hp
      omega
    | cons y ys =>
      simp only [encMsg] at h
      obtain ⟨hxy, henc⟩ := two_pow_odd_inj x y (encMsg xs) (encMsg ys) h
      rw [hxy, ih ys henc]

/-- The idealised signature determines both the key and the message. -/
theorem rawSign_inj (k1 k2 : Nat) (m1 m2 : Bytes)
    (h : rawSign k1 m1 = rawSign k2 m2) : k1 = k2 ∧ m1 = m2 := by
  simp only [rawSign, List.cons.injEq] at h
  exact ⟨h.1, encMsg_inj m1 m2 h.2.1⟩

/-- Equal messages with the same payload suffix have equal predecessor
hashes. -/
theorem hash_of_append_eq (h1 h2 : Hash) (d : Bytes)
    (h : h1.bytes ++ d = h2.bytes ++ d) : h1 = h2 := by
  have hlen : h1.bytes.length = h2.bytes.length := by
    have := congrArg List.length h
    simp at this
    omega
  obtain ⟨hb, _⟩ := List.append_inj h hlen
  cases h1
  cases h2
  simpa using hb

/-- Sample block: the block produced by `Block::new` at entropy state 0
from the genesis hash and an empty payload. -/
def blk0 : Block :=
  { hash := Hash.digest Hash.default [],
    ownership := Ownership.Us ⟨0⟩,
    signature := rawSign 0 (Hash.default.bytes ++ []),
    data := [] }

/-- Sample block: the block produced by `Block::new` at entropy state 1
from the genesis hash and an empty payload. -/
def blk0b : Block :=
  { hash := Hash.digest Hash.default [],
    ownership := Ownership.Us ⟨1⟩,
    signature := rawSign 1 (Hash.default.bytes ++ []),
    data := [] }

/-- Sample block with keyed ownership whose stored signature does not
match its contents. -/
def blkBad : Block :=
  { hash := Hash.default,
    ownership := Ownership.Us ⟨0⟩,
    signature := List.replicate Hash.SIG_LEN 0,
    data := [] }

/-- A hash distinct from the genesis default hash. -/
def hash1 : Hash := ⟨1 :: List.replicate 31 0⟩

/-- C1: for every predecessor hash `h` and payload `d`, a block built by
`Block::new(h, d)` verifies against the same predecessor hash: `verify h`
returns `Ok(true)`. -/
theorem C1_round_trip (g : Nat) (h : Hash) (d : Bytes) (b : Block)
    (hb : (Block.new g h d).1 = Except.ok b) :
    b.verify h = Except.ok true := by
  simp only [Block.new, Hash.new] at hb
  injection hb with hb
  subst hb
  simp [Block.verify, Ownership.ofPrivate, Hash.verify]

/-- C1 witness at entropy 0, genesis predecessor and empty payload. -/
theorem C1_round_trip_witness : Block.verify blk0 Hash.default = Except.ok true :=
  C1_round_trip 0 Hash.default [] blk0 rfl

/-- C2: for every block whose ownership is `Genesis` (in particular the
default genesis block) and every predecessor hash, `verify` returns the
`GenesisIsNotKey` error and never returns `Ok(true)` or `Ok(false)`. -/
theorem C2_genesis_verify (b : Block) (h : Hash)
    (hg : b.ownership = Ownership.Genesis) :
    b.verify h = Except.error Error.GenesisIsNotKey ∧
    ∀ r : Bool, b.verify h ≠ Except.ok r := by
  have hv : b.verify h = Except.error Error.GenesisIsNotKey := by
    simp only [Block.verify, hg]
  refine ⟨hv, fun r hr => ?_⟩
  rw [hv] at hr
  cases hr

/-- C2 witness: the default genesis block against the default hash. -/
theorem C2_genesis_verify_witness :
    Block.default.verify Hash.default = Except.error Error.GenesisIsNotKey :=
  (C2_genesis_verify Block.default Hash.default rfl).1

/-- C3: a block built on predecessor `h1` and verified against a distinct
predecessor `h2` yields `Ok(false)`: not `Ok(true)` and not an error. -/
theorem C3_tamper_predecessor (g : Nat) (h1 h2 : Hash) (d : Bytes)
    (b : Block) (hne : h1 ≠ h2)
    (hb : (Block.new g h1 d).1 = Except.ok b) :
    b.verify h2 = Except.ok false := by
  simp only [Block.new, Hash.new] at hb
  injection hb with hb
  subst hb
  simp only [Block.verify, Ownership.ofPrivate, Hash.verify]
  congr 1
  rw [decide_eq_false_iff_not]
  intro hEq
  exact hne (hash_of_append_eq h1 h2 d (rawSign_inj g g _ _ hEq).2)

/-- C3 witness: the sample block verified against a different hash. -/
theorem C3_tamper_predecessor_witness :
    Block.verify blk0 hash1 = Except.ok false :=
  C3_tamper_predecessor 0 Hash.default hash1 [] blk0 (by decide) rfl

/-- C4: on a block with keyed ownership, a stored signature that does not
match the (predecessor hash, data, key) triple makes `verify` return
`Ok(false)`, and `verify` never returns an error on keyed ownership. -/
theorem C4_mismatch_not_error (b : Block) (h : Hash) (k : Nat)
    (hk : b.ownership = Ownership.Them ⟨k⟩ ∨ b.ownership = Ownership.Us ⟨k⟩) :
    (b.signature ≠ rawSign k (h.bytes ++ b.data) →
      b.verify h = Except.ok false) ∧
    ∀ e : Error, b.verify h ≠ Except.error e := by
  have hv : b.verify h =
      Except.ok (decide (b.signature = rawSign k (h.bytes ++ b.data))) := by
    cases hk with
    | inl hk => simp only [Block.verify, hk, Hash.verify]
    | inr hk => simp only [Block.verify, hk, Hash.verify]
  constructor
  · intro hne
    rw [hv]
    congr 1
    exact decide_eq_false_iff_not.mpr hne
  · intro e he
    rw [hv] at he
    cases he

/-- C4 witness: a keyed block with an all-zero (mismatching) signature
verifies to `Ok(false)`. -/
theorem C4_mismatch_not_error_witness :
    Block.verify blkBad Hash.default = Except.ok false :=
  (C4_mismatch_not_error blkBad Hash.default 0 (Or.inr rfl)).1 (by decide)

/-- C5: `to_raw_public` fails with `GenesisIsNotKey` on the `Genesis`
variant and succeeds with non-empty public-key bytes on both keyed
variants. -/
theorem C5_to_raw_public (o : Ownership) :
    (o = Ownership.Genesis →
      o.to_raw_public = Except.error Error.GenesisIsNotKey) ∧
    (∀ k : PKeyPublic, o = Ownership.Them k →
      o.to_raw_public = Except.ok (raw_public_key k.id) ∧
      raw_public_key k.id ≠ []) ∧
    (∀ k : PKeyPrivate, o = Ownership.Us k →
      o.to_raw_public = Except.ok (raw_public_key k.id) ∧
      raw_public_key k.id ≠ []) := by
  refine ⟨fun hg => ?_, fun k hk => ?_, fun k hk => ?_⟩
  · subst hg; rfl
  · subst hk
    exact ⟨rfl, by simp [raw_public_key]⟩
  · subst hk
    exact ⟨rfl, by simp [raw_public_key]⟩

/-- C5 witness: a concrete private-key ownership exports successfully. -/
theorem C5_to_raw_public_witness :
    (Ownership.Us ⟨0⟩).to_raw_public = Except.ok (raw_public_key 0) ∧
    raw_public_key 0 ≠ [] :=
  (C5_to_raw_public (Ownership.Us ⟨0⟩)).2.2 ⟨0⟩ rfl

/-- C6: the default block is the canonical genesis block: default hash,
`Genesis` ownership, all-zero signature of length `SIG_LEN`, empty
payload; as a constant of a pure language it is identical across uses and
cannot fail. -/
theorem C6_default_canonical :
    Block.default.hash = Hash.default ∧
    Block.default.ownership = Ownership.Genesis ∧
    Block.default.signature = List.replicate Hash.SIG_LEN 0 ∧
    Block.default.signature.length = Hash.SIG_LEN ∧
    Block.default.data = [] := by
  refine ⟨rfl, rfl, rfl, ?_, rfl⟩
  simp [Block.default]

/-- C7: serialization of a block is a struct with exactly the fields
`pver` (the fixed protocol-version constant), `hash`, `ownership` (the raw
public-key bytes) and `data`, and it fails with the `GenesisIsNotKey`
error when the ownership is `Genesis`. -/
theorem C7_serialization (b : Block) :
    (b.ownership = Ownership.Genesis →
      b.serialize = Except.error Error.GenesisIsNotKey) ∧
    (∀ bs : Bytes, b.ownership.to_raw_public = Except.ok bs →
      b.serialize = Except.ok (SValue.structv "Block"
        [("pver", SValue.nat PROTO_VERSION),
         ("hash", SValue.bytes b.hash.bytes),
         ("ownership", SValue.bytes bs),
         ("data", SValue.bytes b.data)])) := by
  constructor
  · intro hg
    simp only [Block.serialize, Ownership.serialize, hg,
      Ownership.to_raw_public]
  · intro bs hbs
    simp only [Block.serialize, Ownership.serialize, hbs, Hash.serialize]

/-- C7 witness: the sample keyed block serializes to the four-field
struct, and the genesis case is covered by the hypothesis discharge. -/
theorem C7_serialization_witness :
    Block.serialize blk0 = Except.ok (SValue.structv "Block"
      [("pver", SValue.nat PROTO_VERSION),
       ("hash", SValue.bytes blk0.hash.bytes),
       ("ownership", SValue.bytes (raw_public_key 0)),
       ("data", SValue.bytes blk0.data)]) :=
  (C7_serialization blk0).2 (raw_public_key 0) rfl

/-- C8: two successive `Block::new` calls with identical inputs (the
second drawing from the entropy state left by the first) produce blocks
with different signatures and different underlying keys. -/
theorem C8_key_uniqueness (g : Nat) (h : Hash) (d : Bytes) (b1 b2 : Block)
    (hb1 : (Block.new g h d).1 = Except.ok b1)
    (hb2 : (Block.new ((Block.new g h d).2) h d).1 = Except.ok b2) :
    b1.signature ≠ b2.signature ∧ b1.ownership ≠ b2.ownership := by
  simp only [Block.new, Hash.new] at hb1 hb2
  injection hb1 with hb1
  injection hb2 with hb2
  subst hb1
  subst hb2
  constructor
  · intro hs
    have := (rawSign_inj g (g + 1) _ _ hs).1
    omega
  · intro ho
    simp only [Ownership.ofPrivate, Ownership.Us.injEq,
      PKeyPrivate.mk.injEq] at ho
    omega

/-- C8 witness: the blocks minted at entropy states 0 and 1 from the same
inputs differ in signature and ownership. -/
theorem C8_key_uniqueness_witness :
    blk0.signature ≠ blk0b.signature ∧ blk0.ownership ≠ blk0b.ownership :=
  C8_key_uniqueness 0 Hash.default [] blk0 blk0b rfl rfl

/-- C9: a block returned by `Block::new` stores the payload unchanged, its
ownership is the `Us` variant holding the freshly generated private key,
and its signature has exactly `SIG_LEN` cells. -/
theorem C9_new_fields (g : Nat) (h : Hash) (d : Bytes) (b : Block)
    (hb : (Block.new g h d).1 = Except.ok b) :
    b.data = d ∧ b.ownership = Ownership.Us ⟨g⟩ ∧
    b.signature.length = Hash.SIG_LEN := by
  simp only [Block.new, Hash.new] at hb
  injection hb with hb
  subst hb
  refine ⟨rfl, rfl, ?_⟩
  simp [rawSign, Hash.SIG_LEN]

/-- C9 witness at entropy 0, genesis predecessor and empty payload. -/
theorem C9_new_fields_witness :
    blk0.data = [] ∧ blk0.ownership = Ownership.Us ⟨0⟩ ∧
    blk0.signature.length = Hash.SIG_LEN :=
  C9_new_fields 0 Hash.default [] blk0 rfl

/-- C10: `Block::verify` and `Ownership::to_raw_public` are read-only: in
the state-threaded forms the receiver after the call equals the receiver
before it, on every branch (success and error alike), and the result is
that of the plain operation. -/
theorem C10_read_only :
    (∀ (b : Block) (h : Hash),
      (b.verifyS h).2 = b ∧ (b.verifyS h).1 = b.verify h) ∧
    (∀ o : Ownership,
      o.to_raw_publicS.2 = o ∧ o.to_raw_publicS.1 = o.to_raw_public) := by
  constructor
  · intro b h
    constructor
    · cases hb : b.ownership <;> simp [Block.verifyS, hb]
    · cases hb : b.ownership <;> simp [Block.verifyS, Block.verify, hb]
  · intro o
    exact ⟨rfl, rfl⟩

end Onft
